import Mathlib

/-
Verification of src/AppHider/convert_icon.py.

The script defines one function, convert_to_ico(source, target), which
opens the image at `source` with the PIL codec, saves it to `target` in
ICO format with sizes=[(256, 256)], and prints a success message; any
Exception raised inside the try block is caught, an error line
"Error converting icon: {e}" is printed, and the process exits with
code 1.  We embed the function as a pure state transformer over an
explicit filesystem state, with the external image codec (PIL) given as
an abstract structure of decode/encode functions, and the codec contract
stated separately as a proposition.
-/

namespace AppHider

/-- Filesystem paths, as strings (the script uses plain string paths). -/
abbrev Path := String

/-- File contents, as byte sequences modelled by lists of naturals. -/
abbrev Bytes := List Nat

/-- An in-memory raster image, the value produced by decoding a file:
its pixel dimensions together with its decoded pixel payload. -/
structure PILImage where
  width : Nat
  height : Nat
  data : List Nat
deriving DecidableEq

/-- The image container formats this program mentions.  The script only
ever passes format='ICO' to the save call. -/
inductive ImgFormat
  | ICO
deriving DecidableEq

/-- A Python exception value: the class of the exception and the message
that str(e) renders. -/
structure PyError where
  cls : String
  msg : String
deriving DecidableEq

/-- Filesystem state: the contents found at each path, and whether the
current process may write at each path. -/
structure FS where
  files : Path → Option Bytes
  writable : Path → Bool

/-- Overwrite or create the file at path p with contents b, leaving
every other path and all writability unchanged. -/
def FS.write (fs : FS) (p : Path) (b : Bytes) : FS :=
  { fs with files := fun q => if q = p then some b else fs.files q }

/-- The external image codec (PIL in the script): decoding bytes into an
image, encoding an image into a container format at the requested size
list, and the frame inventory that an ICO reader extracts from a byte
sequence (none when the bytes are not a valid ICO container). -/
structure Codec where
  decode : Bytes → Option PILImage
  encode : PILImage → ImgFormat → List (Nat × Nat) → Option Bytes
  icoFrames : Bytes → Option (List (Nat × Nat))

/-- The contract the spec states for the external codec: whenever
encode succeeds for format ICO with size list [(256, 256)], the produced
bytes form a valid ICO container whose frame inventory is exactly one
256×256 frame, and decoding those bytes recovers a 256×256 image. -/
def Codec.SpecContract (c : Codec) : Prop :=
  ∀ img b, c.encode img ImgFormat.ICO [(256, 256)] = some b →
    c.icoFrames b = some [(256, 256)] ∧
    ∃ img2, c.decode b = some img2 ∧ img2.width = 256 ∧ img2.height = 256

/-- How a call of convert_to_ico ends: a normal return, process
termination with an exit code (the exit(1) call in the handler), or an
exception propagating out of the function uncaught. -/
inductive PyOutcome
  | normal
  | exited (code : Nat)
  | raised (e : PyError)
deriving DecidableEq

/-- Result of running convert_to_ico: the filesystem afterwards, the
lines printed to the console in order, and how the call ended. -/
structure RunResult where
  fs : FS
  output : List String
  outcome : PyOutcome

/-- Result of running the whole script: filesystem, console lines, and
the process exit code. -/
structure ScriptResult where
  fs : FS
  output : List String
  exitCode : Nat

/-- The try-block body of convert_to_ico, translated statement by
statement: Image.open(source) reads and decodes the source file, raising
FileNotFoundError when the file is absent and UnidentifiedImageError
when the bytes do not decode; img.save(target, format='ICO',
sizes=[(256, 256)]) encodes the image (raising OSError when the codec
cannot encode it) and writes the bytes to target (raising
PermissionError when target is not writable); then the success line is
printed.  Returns the filesystem, the printed lines, and either ok or
the raised exception. -/
def convertBody (c : Codec) (fs : FS) (source target : Path) :
    FS × List String × Except PyError Unit :=
  match fs.files source with
  | none =>
      (fs, [], Except.error ⟨"FileNotFoundError",
        "[Errno 2] No such file or directory: " ++ source⟩)
  | some raw =>
      match c.decode raw with
      | none =>
          (fs, [], Except.error ⟨"UnidentifiedImageError",
            "cannot identify image file " ++ source⟩)
      | some img =>
          match c.encode img ImgFormat.ICO [(256, 256)] with
          | none =>
              (fs, [], Except.error ⟨"OSError",
                "cannot write mode as ICO"⟩)
          | some enc =>
              if fs.writable target then
                (fs.write target enc,
                 ["Successfully converted " ++ source ++ " to " ++ target],
                 Except.ok ())
              else
                (fs, [], Except.error ⟨"PermissionError",
                  "[Errno 13] Permission denied: " ++ target⟩)

/-- convert_to_ico: run the try block; when it raises, the except branch
prints "Error converting icon: {e}" and calls exit(1). -/
def convert_to_ico (c : Codec) (fs : FS) (source target : Path) : RunResult :=
  match convertBody c fs source target with
  | (fs2, out, Except.ok ()) => ⟨fs2, out, PyOutcome.normal⟩
  | (fs2, out, Except.error e) =>
      ⟨fs2, out ++ ["Error converting icon: " ++ e.msg], PyOutcome.exited 1⟩

/-- The whole process: the __main__ block calls convert_to_ico and the
interpreter exits with code 0 when the call returns normally; exit(1)
inside the handler yields exit code 1; an uncaught exception would make
the interpreter exit with code 1 after a traceback. -/
def runScript (c : Codec) (fs : FS) (source target : Path) : ScriptResult :=
  match convert_to_ico c fs source target with
  | ⟨fs2, out, PyOutcome.normal⟩ => ⟨fs2, out, 0⟩
  | ⟨fs2, out, PyOutcome.exited n⟩ => ⟨fs2, out, n⟩
  | ⟨fs2, out, PyOutcome.raised _⟩ => ⟨fs2, out, 1⟩

/-- The hard-coded source path of the __main__ block. -/
def mainSource : Path := "d:/kaifa/apphier/AppHider/icon.png"

/-- The hard-coded target path of the __main__ block. -/
def mainTarget : Path := "d:/kaifa/apphier/AppHider/app.ico"

/-- The script run on its hard-coded paths. -/
def mainScript (c : Codec) (fs : FS) : ScriptResult :=
  runScript c fs mainSource mainTarget

/-- A small concrete decoder for witnesses: a two-element byte list
[w, h] decodes to a w×h image, everything else is undecodable. -/
def toyDecode : Bytes → Option PILImage
  | [w, h] => some ⟨w, h, []⟩
  | _ => none

/-- A small concrete encoder for witnesses: encoding to ICO with a
single requested size (w, h) yields the byte list [w, h]. -/
def toyEncode : PILImage → ImgFormat → List (Nat × Nat) → Option Bytes
  | _, ImgFormat.ICO, [(w, h)] => some [w, h]
  | _, _, _ => none

/-- Frame inventory of the toy format: [w, h] is an ICO container with
the single frame (w, h). -/
def toyIcoFrames : Bytes → Option (List (Nat × Nat))
  | [w, h] => some [(w, h)]
  | _ => none

/-- The concrete witness codec. -/
def toyCodec : Codec := ⟨toyDecode, toyEncode, toyIcoFrames⟩

/-- Witness source path. -/
def srcPng : Path := "icon.png"

/-- Witness target path. -/
def tgtIco : Path := "app.ico"

/-- A filesystem holding a decodable 512×512 source image at srcPng,
with every path writable. -/
def toyFS : FS :=
  ⟨fun p => if p = srcPng then some [512, 512] else none, fun _ => true⟩

/-- A filesystem with no files at all, every path writable. -/
def emptyFS : FS := ⟨fun _ => none, fun _ => true⟩

/-- A filesystem whose source file exists but does not decode as an
image (a text file). -/
def txtFS : FS :=
  ⟨fun p => if p = srcPng then some [1, 2, 3] else none, fun _ => true⟩

/-- A filesystem with a decodable source but no writable path. -/
def lockedFS : FS :=
  ⟨fun p => if p = srcPng then some [512, 512] else none, fun _ => false⟩

lemma toyCodec_contract : toyCodec.SpecContract := by
  intro img b h
  have hb : b = [256, 256] := by
    simpa [toyCodec, toyEncode] using h.symm
  subst hb
  exact ⟨rfl, ⟨⟨256, 256, []⟩, rfl, rfl, rfl⟩⟩

lemma FS.write_files_eq (fs : FS) (p : Path) (b : Bytes) :
    (fs.write p b).files p = some b := by
  simp [FS.write]

lemma FS.write_files_ne (fs : FS) (p : Path) (b : Bytes) (q : Path)
    (h : q ≠ p) : (fs.write p b).files q = fs.files q := by
  simp [FS.write, h]

lemma FS.write_writable (fs : FS) (p : Path) (b : Bytes) :
    (fs.write p b).writable = fs.writable := rfl

lemma convertBody_noFile (c : Codec) (fs : FS) (s t : Path)
    (hs : fs.files s = none) :
    convertBody c fs s t = (fs, [], Except.error ⟨"FileNotFoundError",
      "[Errno 2] No such file or directory: " ++ s⟩) := by
  unfold convertBody
  rw [hs]

lemma convertBody_noDecode (c : Codec) (fs : FS) (s t : Path) (raw : Bytes)
    (hs : fs.files s = some raw) (hd : c.decode raw = none) :
    convertBody c fs s t = (fs, [], Except.error ⟨"UnidentifiedImageError",
      "cannot identify image file " ++ s⟩) := by
  unfold convertBody
  simp only [hs, hd]

lemma convertBody_noEncode (c : Codec) (fs : FS) (s t : Path) (raw : Bytes)
    (img : PILImage) (hs : fs.files s = some raw) (hd : c.decode raw = some img)
    (he : c.encode img ImgFormat.ICO [(256, 256)] = none) :
    convertBody c fs s t = (fs, [], Except.error ⟨"OSError",
      "cannot write mode as ICO"⟩) := by
  unfold convertBody
  simp only [hs, hd, he]

lemma convertBody_noWrite (c : Codec) (fs : FS) (s t : Path) (raw : Bytes)
    (img : PILImage) (enc : Bytes) (hs : fs.files s = some raw)
    (hd : c.decode raw = some img)
    (he : c.encode img ImgFormat.ICO [(256, 256)] = some enc)
    (hw : fs.writable t = false) :
    convertBody c fs s t = (fs, [], Except.error ⟨"PermissionError",
      "[Errno 13] Permission denied: " ++ t⟩) := by
  unfold convertBody
  simp only [hs, hd, he, hw]
  simp

lemma convertBody_success (c : Codec) (fs : FS) (s t : Path) (raw : Bytes)
    (img : PILImage) (enc : Bytes) (hs : fs.files s = some raw)
    (hd : c.decode raw = some img)
    (he : c.encode img ImgFormat.ICO [(256, 256)] = some enc)
    (hw : fs.writable t = true) :
    convertBody c fs s t = (fs.write t enc,
      ["Successfully converted " ++ s ++ " to " ++ t], Except.ok ()) := by
  unfold convertBody
  simp only [hs, hd, he, hw]
  simp

/-- Exhaustive shape of a run of the try block: either it raises some
exception having printed nothing and left the filesystem unchanged, or
all three steps succeeded and it wrote the encoded bytes at the target
and printed the success line. -/
lemma convertBody_cases (c : Codec) (fs : FS) (s t : Path) :
    (∃ e, convertBody c fs s t = (fs, [], Except.error e)) ∨
    (∃ raw img enc, fs.files s = some raw ∧ c.decode raw = some img ∧
      c.encode img ImgFormat.ICO [(256, 256)] = some enc ∧
      fs.writable t = true ∧
      convertBody c fs s t = (fs.write t enc,
        ["Successfully converted " ++ s ++ " to " ++ t], Except.ok ())) := by
  rcases hs : fs.files s with _ | raw
  · exact Or.inl ⟨_, convertBody_noFile c fs s t hs⟩
  rcases hd : c.decode raw with _ | img
  · exact Or.inl ⟨_, convertBody_noDecode c fs s t raw hs hd⟩
  rcases he : c.encode img ImgFormat.ICO [(256, 256)] with _ | enc
  · exact Or.inl ⟨_, convertBody_noEncode c fs s t raw img hs hd he⟩
  rcases hw : fs.writable t with _ | _
  · exact Or.inl ⟨_, convertBody_noWrite c fs s t raw img enc hs hd he hw⟩
  · exact Or.inr ⟨raw, img, enc, rfl, hd, he, rfl,
      convertBody_success c fs s t raw img enc hs hd he hw⟩

lemma convert_to_ico_of_error (c : Codec) (fs : FS) (s t : Path)
    (e : PyError) (fs2 : FS) (out : List String)
    (h : convertBody c fs s t = (fs2, out, Except.error e)) :
    convert_to_ico c fs s t =
      ⟨fs2, out ++ ["Error converting icon: " ++ e.msg], PyOutcome.exited 1⟩ := by
  unfold convert_to_ico
  rw [h]

lemma convert_to_ico_of_ok (c : Codec) (fs : FS) (s t : Path)
    (fs2 : FS) (out : List String)
    (h : convertBody c fs s t = (fs2, out, Except.ok ())) :
    convert_to_ico c fs s t = ⟨fs2, out, PyOutcome.normal⟩ := by
  unfold convert_to_ico
  rw [h]

lemma runScript_of_error (c : Codec) (fs : FS) (s t : Path)
    (e : PyError) (fs2 : FS) (out : List String)
    (h : convertBody c fs s t = (fs2, out, Except.error e)) :
    runScript c fs s t =
      ⟨fs2, out ++ ["Error converting icon: " ++ e.msg], 1⟩ := by
  unfold runScript
  rw [convert_to_ico_of_error c fs s t e fs2 out h]

lemma runScript_of_ok (c : Codec) (fs : FS) (s t : Path)
    (fs2 : FS) (out : List String)
    (h : convertBody c fs s t = (fs2, out, Except.ok ())) :
    runScript c fs s t = ⟨fs2, out, 0⟩ := by
  unfold runScript
  rw [convert_to_ico_of_ok c fs s t fs2 out h]

/-- Characterization of a zero exit code: the run succeeded, and the
result is exactly the write of the encoded bytes plus the success
line. -/
lemma runScript_exit_zero (c : Codec) (fs : FS) (s t : Path)
    (h : (runScript c fs s t).exitCode = 0) :
    ∃ raw img enc, fs.files s = some raw ∧ c.decode raw = some img ∧
      c.encode img ImgFormat.ICO [(256, 256)] = some enc ∧
      fs.writable t = true ∧
      runScript c fs s t = ⟨fs.write t enc,
        ["Successfully converted " ++ s ++ " to " ++ t], 0⟩ := by
  rcases convertBody_cases c fs s t with ⟨e, he⟩ |
    ⟨raw, img, enc, hs, hd, hen, hw, hb⟩
  · rw [runScript_of_error c fs s t e fs [] he] at h
    simp at h
  · exact ⟨raw, img, enc, hs, hd, hen, hw, runScript_of_ok c fs s t _ _ hb⟩

/-- Every raising run of the try block prints nothing and leaves the
filesystem untouched before the handler runs. -/
lemma convertBody_error_shape (c : Codec) (fs : FS) (s t : Path)
    (e : PyError) (fs2 : FS) (out : List String)
    (h : convertBody c fs s t = (fs2, out, Except.error e)) :
    fs2 = fs ∧ out = [] := by
  rcases convertBody_cases c fs s t with ⟨e2, he2⟩ |
    ⟨raw, img, enc, _, _, _, _, hb⟩
  · rw [he2] at h
    simp only [Prod.mk.injEq] at h
    exact ⟨h.1.symm, h.2.1.symm⟩
  · rw [hb] at h
    simp only [Prod.mk.injEq] at h
    exact absurd h.2.2 (by simp)

/-- C1: when the source file exists and decodes to an image, the codec
encodes it for ICO at size list [(256, 256)], and the target is
writable, the run exits with code 0 and leaves at the target a byte
sequence that is a valid ICO container holding exactly one frame, of
size 256×256, under the codec contract. -/
theorem c1_success_produces_single_frame_ico (c : Codec) (fs : FS)
    (s t : Path) (raw : Bytes) (img : PILImage) (enc : Bytes)
    (hc : c.SpecContract) (hs : fs.files s = some raw)
    (hd : c.decode raw = some img)
    (he : c.encode img ImgFormat.ICO [(256, 256)] = some enc)
    (hw : fs.writable t = true) :
    (runScript c fs s t).exitCode = 0 ∧
    (runScript c fs s t).fs.files t = some enc ∧
    c.icoFrames enc = some [(256, 256)] := by
  rw [runScript_of_ok c fs s t _ _
    (convertBody_success c fs s t raw img enc hs hd he hw)]
  exact ⟨rfl, FS.write_files_eq fs t enc, (hc img enc he).1⟩

/-- Witness for C1: the toy codec on a 512×512 source converts with
exit code 0 and a one-frame 256×256 ICO at the target. -/
theorem c1_witness :
    toyCodec.SpecContract ∧
    toyFS.files srcPng = some [512, 512] ∧
    toyCodec.decode [512, 512] = some ⟨512, 512, []⟩ ∧
    toyCodec.encode ⟨512, 512, []⟩ ImgFormat.ICO [(256, 256)] =
      some [256, 256] ∧
    toyFS.writable tgtIco = true ∧
    ((runScript toyCodec toyFS srcPng tgtIco).exitCode = 0 ∧
     (runScript toyCodec toyFS srcPng tgtIco).fs.files tgtIco =
       some [256, 256] ∧
     toyCodec.icoFrames [256, 256] = some [(256, 256)]) :=
  ⟨toyCodec_contract, rfl, rfl, rfl, rfl,
   c1_success_produces_single_frame_ico toyCodec toyFS srcPng tgtIco
     [512, 512] ⟨512, 512, []⟩ [256, 256] toyCodec_contract rfl rfl rfl rfl⟩

/-- C2: every failure raised in the try block, whatever its cause, is
caught and mapped to the same path: the console output of the whole run
is the single line "Error converting icon: " followed by the failure
description, and the process exit code is 1. -/
theorem c2_uniform_failure_path (c : Codec) (fs : FS) (s t : Path)
    (e : PyError) (fs2 : FS) (out : List String)
    (h : convertBody c fs s t = (fs2, out, Except.error e)) :
    (runScript c fs s t).output = ["Error converting icon: " ++ e.msg] ∧
    (runScript c fs s t).exitCode = 1 := by
  obtain ⟨hfs2, hout⟩ := convertBody_error_shape c fs s t e fs2 out h
  rw [hfs2, hout] at h
  rw [runScript_of_error c fs s t e fs [] h]
  exact ⟨rfl, rfl⟩

/-- Witness for C2: a missing source file is caught and reported with
exit code 1. -/
theorem c2_witness :
    convertBody toyCodec emptyFS srcPng tgtIco =
      (emptyFS, [], Except.error ⟨"FileNotFoundError",
        "[Errno 2] No such file or directory: " ++ srcPng⟩) ∧
    ((runScript toyCodec emptyFS srcPng tgtIco).output =
      ["Error converting icon: " ++
        ("[Errno 2] No such file or directory: " ++ srcPng)] ∧
     (runScript toyCodec emptyFS srcPng tgtIco).exitCode = 1) :=
  ⟨rfl, c2_uniform_failure_path toyCodec emptyFS srcPng tgtIco _ _ _ rfl⟩

/-- C3: every run prints exactly one console line: either the error
line, or the success line naming both paths, and in the latter case the
write to the target has completed, the target holding exactly the bytes
the codec encoded. -/
theorem c3_single_output_line (c : Codec) (fs : FS) (s t : Path) :
    (∃ msg, (convert_to_ico c fs s t).output =
      ["Error converting icon: " ++ msg]) ∨
    ((convert_to_ico c fs s t).output =
        ["Successfully converted " ++ s ++ " to " ++ t] ∧
      ∃ enc, (convert_to_ico c fs s t).fs.files t = some enc ∧
        ∃ raw img, fs.files s = some raw ∧ c.decode raw = some img ∧
          c.encode img ImgFormat.ICO [(256, 256)] = some enc) := by
  rcases convertBody_cases c fs s t with ⟨e, he⟩ |
    ⟨raw, img, enc, hs, hd, hen, hw, hb⟩
  · rw [convert_to_ico_of_error c fs s t e fs [] he]
    exact Or.inl ⟨e.msg, rfl⟩
  · rw [convert_to_ico_of_ok c fs s t _ _ hb]
    exact Or.inr ⟨rfl, enc, FS.write_files_eq fs t enc, raw, img, hs, hd, hen⟩

/-- C4: when no file exists at the source path the run reports an error
with exit code 1 and the contents at the target path are exactly what
they were before: nothing is created and nothing is modified. -/
theorem c4_missing_source (c : Codec) (fs : FS) (s t : Path)
    (hs : fs.files s = none) :
    (runScript c fs s t).exitCode = 1 ∧
    (∃ msg, (runScript c fs s t).output =
      ["Error converting icon: " ++ msg]) ∧
    (runScript c fs s t).fs.files t = fs.files t := by
  rw [runScript_of_error c fs s t _ fs [] (convertBody_noFile c fs s t hs)]
  exact ⟨rfl, ⟨_, rfl⟩, rfl⟩

/-- Witness for C4: on the empty filesystem the source is absent, the
exit code is 1, and the target path still holds nothing. -/
theorem c4_witness :
    emptyFS.files srcPng = none ∧
    ((runScript toyCodec emptyFS srcPng tgtIco).exitCode = 1 ∧
     (∃ msg, (runScript toyCodec emptyFS srcPng tgtIco).output =
       ["Error converting icon: " ++ msg]) ∧
     (runScript toyCodec emptyFS srcPng tgtIco).fs.files tgtIco =
       emptyFS.files tgtIco) :=
  ⟨rfl, c4_missing_source toyCodec emptyFS srcPng tgtIco rfl⟩

/-- C5: the except-Exception handler catches every exception the try
block raises: no run ends with an exception propagating out, and every
raised exception reaches the same report-and-exit branch, appending the
error line and ending with exit(1). -/
theorem c5_handler_catches_all (c : Codec) (fs : FS) (s t : Path) :
    ((convert_to_ico c fs s t).outcome = PyOutcome.normal ∨
     (convert_to_ico c fs s t).outcome = PyOutcome.exited 1) ∧
    (∀ e fs2 out, convertBody c fs s t = (fs2, out, Except.error e) →
      (convert_to_ico c fs s t).outcome = PyOutcome.exited 1 ∧
      (convert_to_ico c fs s t).output =
        out ++ ["Error converting icon: " ++ e.msg]) := by
  constructor
  · rcases convertBody_cases c fs s t with ⟨e, he⟩ |
      ⟨raw, img, enc, hs, hd, hen, hw, hb⟩
    · rw [convert_to_ico_of_error c fs s t e fs [] he]
      exact Or.inr rfl
    · rw [convert_to_ico_of_ok c fs s t _ _ hb]
      exact Or.inl rfl
  · intro e fs2 out h
    rw [convert_to_ico_of_error c fs s t e fs2 out h]
    exact ⟨rfl, rfl⟩

/-- Witness for C5: an undecodable source raises, is caught, and the
run ends in the exit(1) branch with the error line. -/
theorem c5_witness :
    convertBody toyCodec txtFS srcPng tgtIco =
      (txtFS, [], Except.error ⟨"UnidentifiedImageError",
        "cannot identify image file " ++ srcPng⟩) ∧
    ((convert_to_ico toyCodec txtFS srcPng tgtIco).outcome =
       PyOutcome.exited 1 ∧
     (convert_to_ico toyCodec txtFS srcPng tgtIco).output =
       [] ++ ["Error converting icon: " ++
         ("cannot identify image file " ++ srcPng)]) :=
  ⟨rfl, (c5_handler_catches_all toyCodec txtFS srcPng tgtIco).2 _ _ _ rfl⟩

/-- C7: after a successful run, the bytes at the target decode to an
image of exactly 256×256 pixels, under the codec contract. -/
theorem c7_roundtrip_256 (c : Codec) (fs : FS) (s t : Path)
    (hc : c.SpecContract) (h : (runScript c fs s t).exitCode = 0) :
    ∃ b img2, (runScript c fs s t).fs.files t = some b ∧
      c.decode b = some img2 ∧ img2.width = 256 ∧ img2.height = 256 := by
  obtain ⟨raw, img, enc, hs, hd, hen, hw, hrun⟩ :=
    runScript_exit_zero c fs s t h
  obtain ⟨-, img2, hdec, hwidth, hheight⟩ := hc img enc hen
  refine ⟨enc, img2, ?_, hdec, hwidth, hheight⟩
  rw [hrun]
  exact FS.write_files_eq fs t enc

/-- Witness for C7: the toy conversion succeeds and its output decodes
to a 256×256 image. -/
theorem c7_witness :
    toyCodec.SpecContract ∧
    (runScript toyCodec toyFS srcPng tgtIco).exitCode = 0 ∧
    (∃ b img2,
      (runScript toyCodec toyFS srcPng tgtIco).fs.files tgtIco = some b ∧
      toyCodec.decode b = some img2 ∧
      img2.width = 256 ∧ img2.height = 256) :=
  ⟨toyCodec_contract, rfl,
   c7_roundtrip_256 toyCodec toyFS srcPng tgtIco toyCodec_contract rfl⟩

/-- C8: the steps run in a fixed order: a missing source fails before
anything else, a present but undecodable source fails before any
encode, and when decode, encode for ICO at [(256, 256)] and the write
all succeed, the target ends up holding the encoded bytes whether or
not a file was there before, with exit code 0. -/
theorem c8_fixed_step_order (c : Codec) (fs : FS) (s t : Path) :
    (fs.files s = none →
      runScript c fs s t = ⟨fs, ["Error converting icon: " ++
        ("[Errno 2] No such file or directory: " ++ s)], 1⟩) ∧
    (∀ raw, fs.files s = some raw → c.decode raw = none →
      runScript c fs s t = ⟨fs, ["Error converting icon: " ++
        ("cannot identify image file " ++ s)], 1⟩) ∧
    (∀ raw img enc, fs.files s = some raw → c.decode raw = some img →
      c.encode img ImgFormat.ICO [(256, 256)] = some enc →
      fs.writable t = true →
      (runScript c fs s t).fs.files t = some enc ∧
      (runScript c fs s t).exitCode = 0) := by
  refine ⟨?_, ?_, ?_⟩
  · intro hs
    rw [runScript_of_error c fs s t _ fs [] (convertBody_noFile c fs s t hs)]
    rfl
  · intro raw hs hd
    rw [runScript_of_error c fs s t _ fs []
      (convertBody_noDecode c fs s t raw hs hd)]
    rfl
  · intro raw img enc hs hd he hw
    rw [runScript_of_ok c fs s t _ _
      (convertBody_success c fs s t raw img enc hs hd he hw)]
    exact ⟨FS.write_files_eq fs t enc, rfl⟩

/-- Witness for C8: all three step-order branches at concrete
filesystems. -/
theorem c8_witness :
    (emptyFS.files srcPng = none ∧
      runScript toyCodec emptyFS srcPng tgtIco = ⟨emptyFS,
        ["Error converting icon: " ++
          ("[Errno 2] No such file or directory: " ++ srcPng)], 1⟩) ∧
    (txtFS.files srcPng = some [1, 2, 3] ∧
      toyCodec.decode [1, 2, 3] = none ∧
      runScript toyCodec txtFS srcPng tgtIco = ⟨txtFS,
        ["Error converting icon: " ++
          ("cannot identify image file " ++ srcPng)], 1⟩) ∧
    (toyFS.files srcPng = some [512, 512] ∧
      toyCodec.decode [512, 512] = some ⟨512, 512, []⟩ ∧
      toyCodec.encode ⟨512, 512, []⟩ ImgFormat.ICO [(256, 256)] =
        some [256, 256] ∧
      toyFS.writable tgtIco = true ∧
      (runScript toyCodec toyFS srcPng tgtIco).fs.files tgtIco =
        some [256, 256] ∧
      (runScript toyCodec toyFS srcPng tgtIco).exitCode = 0) :=
  ⟨⟨rfl, (c8_fixed_step_order toyCodec emptyFS srcPng tgtIco).1 rfl⟩,
   ⟨rfl, rfl,
    (c8_fixed_step_order toyCodec txtFS srcPng tgtIco).2.1 _ rfl rfl⟩,
   ⟨rfl, rfl, rfl, rfl,
    (c8_fixed_step_order toyCodec toyFS srcPng tgtIco).2.2
      [512, 512] ⟨512, 512, []⟩ [256, 256] rfl rfl rfl rfl⟩⟩

/-- C9: the target path is the only filesystem location a run can
change: every other path keeps its contents, and writability is
untouched everywhere. -/
theorem c9_only_target_written (c : Codec) (fs : FS) (s t p : Path)
    (hp : p ≠ t) :
    (runScript c fs s t).fs.files p = fs.files p ∧
    (runScript c fs s t).fs.writable = fs.writable := by
  rcases convertBody_cases c fs s t with ⟨e, he⟩ |
    ⟨raw, img, enc, hs, hd, hen, hw, hb⟩
  · rw [runScript_of_error c fs s t e fs [] he]
    exact ⟨rfl, rfl⟩
  · rw [runScript_of_ok c fs s t _ _ hb]
    exact ⟨FS.write_files_ne fs t enc p hp, rfl⟩

/-- Witness for C9: the source file is untouched by a successful
conversion. -/
theorem c9_witness :
    srcPng ≠ tgtIco ∧
    ((runScript toyCodec toyFS srcPng tgtIco).fs.files srcPng =
       toyFS.files srcPng ∧
     (runScript toyCodec toyFS srcPng tgtIco).fs.writable =
       toyFS.writable) :=
  ⟨by decide,
   c9_only_target_written toyCodec toyFS srcPng tgtIco srcPng (by decide)⟩

/-- C10: convert_to_ico never lets an exception propagate to its
caller: every call either returns normally, exactly when reading,
decoding, encoding and the write all succeed, or exits the process from
inside the handler; and a normal return guarantees the target file was
written. -/
theorem c10_no_exception_escapes (c : Codec) (fs : FS) (s t : Path) :
    ((convert_to_ico c fs s t).outcome = PyOutcome.normal ∨
     (convert_to_ico c fs s t).outcome = PyOutcome.exited 1) ∧
    ((convert_to_ico c fs s t).outcome = PyOutcome.normal ↔
      ∃ raw img enc, fs.files s = some raw ∧ c.decode raw = some img ∧
        c.encode img ImgFormat.ICO [(256, 256)] = some enc ∧
        fs.writable t = true) ∧
    ((convert_to_ico c fs s t).outcome = PyOutcome.normal →
      ∃ enc, (convert_to_ico c fs s t).fs.files t = some enc) := by
  rcases convertBody_cases c fs s t with ⟨e, he⟩ |
    ⟨raw, img, enc, hs, hd, hen, hw, hb⟩
  · rw [convert_to_ico_of_error c fs s t e fs [] he]
    refine ⟨Or.inr rfl, ⟨fun hcon => absurd hcon (by simp), ?_⟩,
      fun hcon => absurd hcon (by simp)⟩
    rintro ⟨raw, img, enc, hs, hd, hen, hw⟩
    have hsucc := convertBody_success c fs s t raw img enc hs hd hen hw
    rw [he] at hsucc
    simp only [Prod.mk.injEq] at hsucc
    exact absurd hsucc.2.2 (by simp)
  · rw [convert_to_ico_of_ok c fs s t _ _ hb]
    exact ⟨Or.inl rfl,
      ⟨fun _ => ⟨raw, img, enc, hs, hd, hen, hw⟩, fun _ => rfl⟩,
      fun _ => ⟨enc, FS.write_files_eq fs t enc⟩⟩

/-- Witness for C10: on the toy success input the success conditions
hold and the call returns normally. -/
theorem c10_witness :
    (∃ raw img enc, toyFS.files srcPng = some raw ∧
      toyCodec.decode raw = some img ∧
      toyCodec.encode img ImgFormat.ICO [(256, 256)] = some enc ∧
      toyFS.writable tgtIco = true) ∧
    (convert_to_ico toyCodec toyFS srcPng tgtIco).outcome =
      PyOutcome.normal :=
  ⟨⟨[512, 512], ⟨512, 512, []⟩, [256, 256], rfl, rfl, rfl, rfl⟩,
   (c10_no_exception_escapes toyCodec toyFS srcPng tgtIco).2.1.mpr
     ⟨[512, 512], ⟨512, 512, []⟩, [256, 256], rfl, rfl, rfl, rfl⟩⟩

/-- C6: running the conversion twice with the same paths is idempotent:
when the first run succeeds and the paths are distinct, the second run
succeeds and leaves byte-identical contents at the target; and whenever
the second run succeeds at all, the two produced files are at least
dimensionally identical, both decoding to images of the same width and
height under the codec contract. -/
theorem c6_idempotent_conversion (c : Codec) (fs : FS) (s t : Path)
    (hc : c.SpecContract) (h1 : (runScript c fs s t).exitCode = 0) :
    (s ≠ t →
      (runScript c (runScript c fs s t).fs s t).exitCode = 0 ∧
      (runScript c (runScript c fs s t).fs s t).fs.files t =
        (runScript c fs s t).fs.files t) ∧
    ((runScript c (runScript c fs s t).fs s t).exitCode = 0 →
      ∃ b1 b2 i1 i2,
        (runScript c fs s t).fs.files t = some b1 ∧
        (runScript c (runScript c fs s t).fs s t).fs.files t = some b2 ∧
        c.decode b1 = some i1 ∧ c.decode b2 = some i2 ∧
        i1.width = i2.width ∧ i1.height = i2.height) := by
  obtain ⟨raw, img, enc, hs, hd, hen, hw, hrun⟩ :=
    runScript_exit_zero c fs s t h1
  constructor
  · intro hst
    have hfs1 : (runScript c fs s t).fs = fs.write t enc := by rw [hrun]
    have hs2 : (fs.write t enc).files s = some raw := by
      rw [FS.write_files_ne fs t enc s hst]
      exact hs
    have hw2 : (fs.write t enc).writable t = true := hw
    have hrun2 := runScript_of_ok c (fs.write t enc) s t _ _
      (convertBody_success c (fs.write t enc) s t raw img enc hs2 hd hen hw2)
    rw [hfs1, hrun2]
    refine ⟨rfl, ?_⟩
    show ((fs.write t enc).write t enc).files t = (fs.write t enc).files t
    rw [FS.write_files_eq, FS.write_files_eq]
  · intro h2
    obtain ⟨raw2, img2, enc2, hs2, hd2, hen2, hw2, hrun2⟩ :=
      runScript_exit_zero c (runScript c fs s t).fs s t h2
    obtain ⟨-, i1, hdec1, hwidth1, hheight1⟩ := hc img enc hen
    obtain ⟨-, i2, hdec2, hwidth2, hheight2⟩ := hc img2 enc2 hen2
    refine ⟨enc, enc2, i1, i2, ?_, ?_, hdec1, hdec2,
      by rw [hwidth1, hwidth2], by rw [hheight1, hheight2]⟩
    · rw [hrun]
      exact FS.write_files_eq fs t enc
    · rw [hrun2]
      exact FS.write_files_eq _ t enc2

/-- Witness for C6: the toy conversion run twice on distinct paths
succeeds both times with byte-identical target contents. -/
theorem c6_witness :
    toyCodec.SpecContract ∧
    (runScript toyCodec toyFS srcPng tgtIco).exitCode = 0 ∧
    srcPng ≠ tgtIco ∧
    ((runScript toyCodec (runScript toyCodec toyFS srcPng tgtIco).fs
        srcPng tgtIco).exitCode = 0 ∧
     (runScript toyCodec (runScript toyCodec toyFS srcPng tgtIco).fs
        srcPng tgtIco).fs.files tgtIco =
       (runScript toyCodec toyFS srcPng tgtIco).fs.files tgtIco) :=
  ⟨toyCodec_contract, rfl, by decide,
   (c6_idempotent_conversion toyCodec toyFS srcPng tgtIco
      toyCodec_contract rfl).1 (by decide)⟩

end AppHider
